import Mathlib

/-!
Verification development for the backend service in `src/backend/server.py`:
an agent-dispatch layer (chat and search endpoints with a lazily initialised
per-kind agent registry, a capabilities endpoint) and a wallpaper generation
pipeline (generate, list, lookup-by-id) over a document store.

Modelling conventions.  The agent implementations (`ai_agents.agents`) and
the document store are external collaborators: agent executions are passed
in as functions returning `Except String Outcome` (the `String` is the
description of a raised fault, caught by the handler's `except` clause), and
store operations are passed in as `Except String` results (the `String` is
the description of a store fault).  The store's `find().sort(..., -1)`
contract is modelled by an explicit descending insertion sort.  Fresh UUIDs
and `datetime.utcnow()` are passed in as parameters (`newId`, `now`).
A raised `HTTPException(status, detail)` that escapes a handler is modelled
by the `httpError status detail` constructor; `str()` of such an exception
is `strOfHTTPException`.
-/

/-- Shared immutable agent configuration (`agent_config = AgentConfig()`,
server.py line 28); its contents are opaque to the dispatch layer. -/
structure AgentConfig where
  token : Nat
deriving DecidableEq, Repr

/-- The single process-wide configuration constructed at startup. -/
def agent_config : AgentConfig := ⟨0⟩

/-- An agent instance.  `kind` tags which implementation was constructed
(`"chat"` for `ChatAgent`, `"search"` for `SearchAgent`), `config` records
the configuration it was constructed from, and `ctorId` is a construction
serial number distinguishing separately constructed instances. -/
structure Agent where
  kind : String
  config : AgentConfig
  ctorId : Nat
deriving DecidableEq, Repr

/-- `SearchAgent(agent_config)` (server.py lines 130, 172, 211). -/
def mkSearchAgent (ctorId : Nat) : Agent := ⟨"search", agent_config, ctorId⟩

/-- `ChatAgent(agent_config)` (server.py lines 133, 212). -/
def mkChatAgent (ctorId : Nat) : Agent := ⟨"chat", agent_config, ctorId⟩

/-- The module-level registry slots `search_agent` and `chat_agent`
(server.py lines 29-30), plus the serial counter used to mint `ctorId`s of
newly constructed instances. -/
structure RegistryState where
  search_agent : Option Agent
  chat_agent : Option Agent
  nextId : Nat
deriving DecidableEq, Repr

/-- What an agent execution returns (the `response`/`result` object used at
server.py lines 142-151 and 176-193): success flag, content, metadata
dictionary and optional error string.  Metadata is modelled as an
association list of integer-valued keys, which covers the single key the
dispatch layer reads (`tools_used`). -/
structure Outcome where
  success : Bool
  content : String
  metadata : List (String × Int)
  error : Option String
deriving DecidableEq, Repr

/-- `ChatRequest` (server.py lines 50-53). -/
structure ChatRequest where
  message : String
  agent_type : String
  context : Option (List (String × Int))
deriving DecidableEq, Repr

/-- `ChatResponse` (server.py lines 56-62). -/
structure ChatResponse where
  success : Bool
  response : String
  agent_type : String
  capabilities : List String
  metadata : List (String × Int)
  error : Option String
deriving DecidableEq, Repr

/-- `SearchRequest` (server.py lines 65-67). -/
structure SearchRequest where
  query : String
  max_results : Int
deriving DecidableEq, Repr

/-- `SearchResponse` (server.py lines 70-76). -/
structure SearchResponse where
  success : Bool
  query : String
  summary : String
  search_results : Option (List (String × Int))
  sources_count : Int
  error : Option String
deriving DecidableEq, Repr

/-- Python's `d.get(k, default)` on the association-list model of a
metadata dictionary (used for `result.metadata.get("tools_used", 0)`,
server.py line 184). -/
def dictGetD (m : List (String × Int)) (k : String) (d : Int) : Int :=
  match m.find? (fun p => p.1 == k) with
  | some p => p.2
  | none => d

/-- Modelled from the spec: `get_capabilities` of the agent implementations
lives in `ai_agents.agents`, which is not under `src/`.  Spec section 4.4:
capability sets are static per agent kind and require no execution or
external service.  The concrete capability strings are not given by the
spec, so fixed nominal values are used; all theorems depend only on the
function being a pure function of the kind. -/
def get_capabilities (kind : String) : List String :=
  if kind == "search" then ["web_search", "summarization"] else ["conversation"]

/-- `str()` of a raised `HTTPException(status_code, detail)`, as produced by
the framework's exception class. -/
def strOfHTTPException (status : Nat) (detail : String) : String :=
  toString status ++ ": " ++ detail

/-- The get-or-create step of the chat dispatcher (server.py lines 125-136):
construct the requested kind's agent if its slot is empty, then select the
slot (`search_agent` when `agent_type == "search"`, otherwise `chat_agent`).
Returns the selected slot's content and the updated registry state. -/
def resolveAgent (agent_type : String) (st : RegistryState) :
    Option Agent × RegistryState :=
  let st₁ :=
    if agent_type == "search" && st.search_agent.isNone then
      { st with search_agent := some (mkSearchAgent st.nextId), nextId := st.nextId + 1 }
    else if agent_type == "chat" && st.chat_agent.isNone then
      { st with chat_agent := some (mkChatAgent st.nextId), nextId := st.nextId + 1 }
    else st
  (if agent_type == "search" then st₁.search_agent else st₁.chat_agent, st₁)

/-- The get-or-create step of the search dispatcher (server.py lines
167-172): construct the search agent if its slot is empty, then use the
slot's instance. -/
def resolveSearchAgent (st : RegistryState) : Agent × RegistryState :=
  match st.search_agent with
  | some a => (a, st)
  | none =>
    let a := mkSearchAgent st.nextId
    (a, { st with search_agent := some a, nextId := st.nextId + 1 })

/-- `chat_with_agent` (server.py lines 122-161).  `execC a m` models
`await a.execute(m)`: `.ok o` is a returned outcome, `.error e` a raised
fault whose `str()` is `e`, caught by the handler's `except` clause.  The
`agent is None` branch raises `HTTPException(500, "Failed to initialize
agent")` inside the `try`, so it too lands in the `except` clause. -/
def chat_with_agent (execC : Agent → String → Except String Outcome)
    (req : ChatRequest) (st : RegistryState) : ChatResponse × RegistryState :=
  let p := resolveAgent req.agent_type st
  match p.1 with
  | none =>
    (⟨false, "", req.agent_type, [], [],
      some (strOfHTTPException 500 "Failed to initialize agent")⟩, p.2)
  | some agent =>
    match execC agent req.message with
    | .error e => (⟨false, "", req.agent_type, [], [], some e⟩, p.2)
    | .ok response =>
      (⟨response.success, response.content, req.agent_type,
        get_capabilities agent.kind, response.metadata, response.error⟩, p.2)

/-- The enriched instruction string built by the search dispatcher
(server.py line 175). -/
def searchPrompt (query : String) : String :=
  "Search for information about: " ++ query ++ ". Provide a comprehensive summary with key findings."

/-- `search_and_summarize` (server.py lines 164-203).  `execS a p t` models
`await a.execute(p, use_tools=t)` with the same `Except` convention as
`chat_with_agent`. -/
def search_and_summarize (execS : Agent → String → Bool → Except String Outcome)
    (req : SearchRequest) (st : RegistryState) : SearchResponse × RegistryState :=
  let p := resolveSearchAgent st
  match execS p.1 (searchPrompt req.query) true with
  | .error e => (⟨false, req.query, "", none, 0, some e⟩, p.2)
  | .ok result =>
    if result.success then
      (⟨true, req.query, result.content, some result.metadata,
        dictGetD result.metadata "tools_used" 0, none⟩, p.2)
    else
      (⟨false, req.query, "", none, 0, result.error⟩, p.2)

/-- `get_agent_capabilities` (server.py lines 206-223): constructs one
throwaway instance per kind solely to read its capability set, assigns
nothing to the registry slots, and returns the success flag together with
the kind-name-to-capability-list mapping. -/
def get_agent_capabilities (st : RegistryState) :
    (Bool × List (String × List String)) × RegistryState :=
  let throwawaySearch := mkSearchAgent st.nextId
  let throwawayChat := mkChatAgent st.nextId
  ((true, [("search_agent", get_capabilities throwawaySearch.kind),
           ("chat_agent", get_capabilities throwawayChat.kind)]), st)

/-- `WallpaperRequest` (server.py lines 80-84). -/
structure WallpaperRequest where
  prompt : String
  aspect_ratio : String
  megapixels : String
  style : Option String
deriving DecidableEq, Repr

/-- The dictionary returned by the image generation service
(`image_result`, server.py lines 236-239, 253-270): success flag, optional
error string, and the image fields read on the success path
(`image_result["image_url"]`, `image_result["image_data"]`).  Success
results are modelled as carrying both image fields. -/
structure ImageResult where
  success : Bool
  error : Option String
  image_url : String
  image_data : String
deriving DecidableEq, Repr

/-- `Wallpaper` (server.py lines 95-101); `created_at` timestamps are
modelled as naturals. -/
structure Wallpaper where
  id : String
  prompt : String
  aspect_ratio : String
  image_url : String
  image_data : String
  created_at : Nat
deriving DecidableEq, Repr

/-- `WallpaperResponse` (server.py lines 86-93). -/
structure WallpaperResponse where
  success : Bool
  id : String
  prompt : String
  image_url : Option String
  preview_url : Option String
  created_at : Nat
  error : Option String
deriving DecidableEq, Repr

/-- Result of a wallpaper-endpoint request: a 200 body, or a raised
`HTTPException(status, detail)` escaping the handler. -/
inductive GenOutcome where
  | ok (resp : WallpaperResponse)
  | httpError (status : Nat) (detail : String)
deriving DecidableEq, Repr

/-- The fixed error message of the unconfigured image generator
(server.py line 238). -/
def notConfiguredMsg : String :=
  "AI image generation is not configured. Please set up a real image generation service (e.g., DALL-E, Midjourney, Stable Diffusion) to generate images."

/-- `generate_ai_image` (server.py lines 227-243): builds the enhanced
prompt, then unconditionally returns the not-configured failure dictionary
(no image generation service is integrated). -/
def generate_ai_image (prompt aspect_ratio megapixels : String) : ImageResult :=
  let _enhanced_prompt :=
    "Phone wallpaper, " ++ prompt ++ ", high resolution, vibrant colors, mobile-optimized, stunning visual"
  { success := false, error := some notConfiguredMsg, image_url := "", image_data := "" }

/-- `generate_wallpaper` (server.py lines 246-288), parameterised by the
image generator `gen` (the source calls `generate_ai_image`), the outcome
of `db.wallpapers.insert_one` (`.error e` is a raised store fault), the
fresh UUID `newId` and the current time `now`.  Returns the HTTP outcome,
the store after the call, and the list of prompts the generator was invoked
on.  A reported generator failure raises `HTTPException(503, error or
"Failed to generate image")`, re-raised unchanged by `except HTTPException`;
any other fault is converted to `HTTPException(500, str(e))`. -/
def generate_wallpaper (gen : String → String → String → ImageResult)
    (insertResult : Except String Unit) (newId : String) (now : Nat)
    (req : WallpaperRequest) (store : List Wallpaper) :
    GenOutcome × List Wallpaper × List String :=
  let calls := [req.prompt]
  let image_result := gen req.prompt req.aspect_ratio req.megapixels
  if image_result.success = false then
    (.httpError 503 (image_result.error.getD "Failed to generate image"), store, calls)
  else
    let wallpaper : Wallpaper :=
      { id := newId, prompt := req.prompt, aspect_ratio := req.aspect_ratio,
        image_url := image_result.image_url, image_data := image_result.image_data,
        created_at := now }
    match insertResult with
    | .error e => (.httpError 500 e, store, calls)
    | .ok _ =>
      (.ok { success := true, id := newId, prompt := req.prompt,
             image_url := some image_result.image_url,
             preview_url := some image_result.image_url,
             created_at := now, error := none },
       store ++ [wallpaper], calls)

/-- `db.wallpapers.find_one({"id": wallpaper_id})` (server.py line 316):
first record whose `id` matches. -/
def dbFindOne (store : List Wallpaper) (wallpaper_id : String) : Option Wallpaper :=
  store.find? (fun w => w.id == wallpaper_id)

/-- `get_wallpaper` (server.py lines 312-330).  The argument is the store
lookup's result (`.error e` a raised store fault).  When the record is
absent the handler raises `HTTPException(404, "Wallpaper not found")`
inside the `try`; the handler's own `except Exception` clause catches that
exception (there is no `except HTTPException: raise` guard here) and
re-raises it as `HTTPException(500, str(e))`. -/
def get_wallpaper (dbResult : Except String (Option Wallpaper)) : GenOutcome :=
  match dbResult with
  | .error e => .httpError 500 e
  | .ok none => .httpError 500 (strOfHTTPException 404 "Wallpaper not found")
  | .ok (some w) =>
    .ok { success := true, id := w.id, prompt := w.prompt,
          image_url := some w.image_url, preview_url := some w.image_url,
          created_at := w.created_at, error := none }

/-- Stable descending insertion by `created_at` (helper for the store's
`sort("created_at", -1)` contract). -/
def insertByCreatedAtDesc (w : Wallpaper) : List Wallpaper → List Wallpaper
  | [] => [w]
  | x :: xs =>
    if x.created_at < w.created_at then w :: x :: xs
    else x :: insertByCreatedAtDesc w xs

/-- The store's descending sort by `created_at`. -/
def sortByCreatedAtDesc (ws : List Wallpaper) : List Wallpaper :=
  ws.foldr insertByCreatedAtDesc []

/-- `db.wallpapers.find().sort("created_at", -1).to_list(100)`
(server.py line 295): descending sort by `created_at`, first 100 records. -/
def dbFindSortDescTake100 (store : List Wallpaper) : List Wallpaper :=
  (sortByCreatedAtDesc store).take 100

/-- The per-record response built by the listing handler
(server.py lines 297-304). -/
def toResponse (w : Wallpaper) : WallpaperResponse :=
  { success := true, id := w.id, prompt := w.prompt,
    image_url := some w.image_url, preview_url := some w.image_url,
    created_at := w.created_at, error := none }

/-- `get_wallpapers` (server.py lines 291-309).  The argument is the
store's sorted-and-limited query result (`.error e` a raised store fault).
On a store fault the handler's `except` clause logs and returns `[]` — a
plain 200 response. -/
def get_wallpapers (dbResult : Except String (List Wallpaper)) :
    List WallpaperResponse :=
  match dbResult with
  | .error _ => []
  | .ok ws => ws.map toResponse

/-- The envelope invariant of spec section 3: failure implies empty payload
and a non-empty error string, success implies no error. -/
def envelopeOk (success : Bool) (payload : String) (error : Option String) : Prop :=
  (success = false → payload = "" ∧ error ≠ none ∧ error ≠ some "") ∧
  (success = true → error = none)

/-- The envelope invariant instantiated at a chat response. -/
def chatInvariant (r : ChatResponse) : Prop := envelopeOk r.success r.response r.error

/-- The envelope invariant instantiated at a search response. -/
def searchInvariant (r : SearchResponse) : Prop := envelopeOk r.success r.summary r.error

/-- An agent outcome that itself satisfies the envelope invariant's shape:
reported failure comes with empty content and a non-empty error, reported
success with no error. -/
def outcomeWellFormed (o : Outcome) : Prop :=
  (o.success = false → o.content = "" ∧ o.error ≠ none ∧ o.error ≠ some "") ∧
  (o.success = true → o.error = none)

/-- A generator function that always returns the same result (used to
instantiate `generate_wallpaper` at a chosen generator reply). -/
def constGen (r : ImageResult) : String → String → String → ImageResult :=
  fun _ _ _ => r

/-- C10: `generate_ai_image` returns `success = false` with the fixed
not-configured message on every input; consequently `generate_wallpaper`
always ends in the 503 service-unavailable condition with that message,
inserts nothing into the store, and this holds whatever the store's insert
would have done. -/
theorem c10_generator_always_unavailable
    (p a m : String) (insertResult : Except String Unit) (newId : String)
    (now : Nat) (req : WallpaperRequest) (store : List Wallpaper) :
    generate_ai_image p a m =
      { success := false, error := some notConfiguredMsg,
        image_url := "", image_data := "" } ∧
    generate_wallpaper generate_ai_image insertResult newId now req store =
      (.httpError 503 notConfiguredMsg, store, [req.prompt]) :=
  ⟨rfl, rfl⟩

/-- C4: when the generator reports `success = false` with an explanation
string, `generate_wallpaper` raises `HTTPException(503, ...)` carrying
exactly that string (re-raised unchanged past the `except HTTPException`
guard), and the store is left unchanged: no record is inserted. -/
theorem c4_unavailable_is_503_verbatim
    (gen : String → String → String → ImageResult)
    (insertResult : Except String Unit) (newId : String) (now : Nat)
    (req : WallpaperRequest) (store : List Wallpaper)
    (msg u d : String)
    (h : gen req.prompt req.aspect_ratio req.megapixels =
      { success := false, error := some msg, image_url := u, image_data := d }) :
    generate_wallpaper gen insertResult newId now req store =
      (.httpError 503 msg, store, [req.prompt]) := by
  simp [generate_wallpaper, h]

/-- Witness for C4 at a concrete generator reply and request. -/
theorem c4_unavailable_is_503_verbatim_witness :
    generate_wallpaper (constGen ⟨false, some "backend down", "", ""⟩) (.ok ())
        "id0" 0 ⟨"mountain sunset", "9:16", "1", none⟩ [] =
      (.httpError 503 "backend down", [], ["mountain sunset"]) :=
  c4_unavailable_is_503_verbatim (constGen ⟨false, some "backend down", "", ""⟩)
    (.ok ()) "id0" 0 ⟨"mountain sunset", "9:16", "1", none⟩ [] "backend down" "" "" rfl

/-- C3 counterexample: for the empty-prompt request, `generate_wallpaper`
does call the external generator (the call record is `[""]`, not `[]`) and
reports the generator-determined 503, not an immediate caller error — the
handler contains no prompt validation at all. -/
theorem c3_counterexample :
    (generate_wallpaper generate_ai_image (.ok ()) "id0" 0
        ⟨"", "9:16", "1", none⟩ []).2.2 = [""] ∧
    (generate_wallpaper generate_ai_image (.ok ()) "id0" 0
        ⟨"", "9:16", "1", none⟩ []).1 = .httpError 503 notConfiguredMsg :=
  ⟨rfl, rfl⟩

/-- C3 amended: an empty prompt is not rejected; the pipeline passes it to
the external generator exactly once like any other prompt, and (with the
repository's generator) the request ends in the 503 unavailable condition
with nothing persisted. -/
theorem c3_empty_prompt_not_validated
    (insertResult : Except String Unit) (newId : String) (now : Nat)
    (ar mp : String) (sty : Option String) (store : List Wallpaper) :
    (generate_wallpaper generate_ai_image insertResult newId now
        ⟨"", ar, mp, sty⟩ store).2.2 = [""] ∧
    (generate_wallpaper generate_ai_image insertResult newId now
        ⟨"", ar, mp, sty⟩ store).1 = .httpError 503 notConfiguredMsg ∧
    (generate_wallpaper generate_ai_image insertResult newId now
        ⟨"", ar, mp, sty⟩ store).2.1 = store :=
  ⟨rfl, rfl, rfl⟩

/-- C5 counterexample: a store fault in the listing endpoint is not
converted to an internal-error response — `get_wallpapers` swallows it and
returns the success-shaped empty list (a plain 200 body). -/
theorem c5_counterexample :
    get_wallpapers (.error "store backend fault") = [] := rfl

/-- C5 amended: an unexpected fault is converted to
`HTTPException(500, str(e))` in the generate endpoint (shown for a store
fault during insertion, with the store unchanged) and in the lookup-by-id
endpoint, while the listing endpoint logs the fault and swallows it into an
empty-list success response. -/
theorem c5_fault_conversion
    (r : ImageResult) (e : String) (newId : String) (now : Nat)
    (req : WallpaperRequest) (store : List Wallpaper) (e₂ e₃ : String)
    (hr : r.success = true) :
    generate_wallpaper (constGen r) (.error e) newId now req store =
      (.httpError 500 e, store, [req.prompt]) ∧
    get_wallpaper (.error e₂) = .httpError 500 e₂ ∧
    get_wallpapers (.error e₃) = [] := by
  refine ⟨?_, rfl, rfl⟩
  simp [generate_wallpaper, constGen, hr]

/-- Witness for C5 at a concrete successful generator reply and store
fault. -/
theorem c5_fault_conversion_witness :
    generate_wallpaper (constGen ⟨true, none, "img-ref", "img-bytes"⟩)
        (.error "db down") "id0" 0 ⟨"ocean", "9:16", "1", none⟩ [] =
      (.httpError 500 "db down", [], ["ocean"]) ∧
    get_wallpaper (.error "db down") = .httpError 500 "db down" ∧
    get_wallpapers (.error "db down") = [] :=
  c5_fault_conversion ⟨true, none, "img-ref", "img-bytes"⟩ "db down" "id0" 0
    ⟨"ocean", "9:16", "1", none⟩ [] "db down" "db down" rfl

/-- C2: looking up an identifier with no matching record does not produce
the distinct not-found condition: the handler's own catch-all `except
Exception` clause intercepts the `HTTPException(404, "Wallpaper not
found")` it just raised (there is no `except HTTPException: raise` guard,
unlike `generate_wallpaper`) and re-raises it as a generic
`HTTPException(500, str(e))`. -/
theorem c2_missing_lookup_becomes_500 :
    get_wallpaper (.ok (dbFindOne [] "00000000-0000-0000-0000-000000000000")) =
      .httpError 500 "404: Wallpaper not found" := rfl

/-- C8: on a first call for a kind (empty slot), the dispatchers' get-or-
create step constructs the kind's implementation from the shared
`agent_config`, stores it in that kind's registry slot and uses it; a
subsequent sequential call for the same kind returns exactly the stored
instance and leaves the registry state (slots and construction counter)
unchanged, so no new instance is constructed.  Shown for the chat
dispatcher's step at both kinds and for the search dispatcher's step. -/
theorem c8_registry_get_or_create (st st₂ : RegistryState)
    (hc : st.chat_agent = none) (hs : st₂.search_agent = none) :
    ((resolveAgent "chat" st).1 = some (mkChatAgent st.nextId) ∧
     ((resolveAgent "chat" st).2).chat_agent = some (mkChatAgent st.nextId) ∧
     (mkChatAgent st.nextId).config = agent_config ∧
     resolveAgent "chat" (resolveAgent "chat" st).2 =
       ((resolveAgent "chat" st).1, (resolveAgent "chat" st).2)) ∧
    ((resolveAgent "search" st₂).1 = some (mkSearchAgent st₂.nextId) ∧
     ((resolveAgent "search" st₂).2).search_agent = some (mkSearchAgent st₂.nextId) ∧
     (mkSearchAgent st₂.nextId).config = agent_config ∧
     resolveAgent "search" (resolveAgent "search" st₂).2 =
       ((resolveAgent "search" st₂).1, (resolveAgent "search" st₂).2)) ∧
    ((resolveSearchAgent st₂).1 = mkSearchAgent st₂.nextId ∧
     ((resolveSearchAgent st₂).2).search_agent = some (mkSearchAgent st₂.nextId) ∧
     resolveSearchAgent (resolveSearchAgent st₂).2 =
       ((resolveSearchAgent st₂).1, (resolveSearchAgent st₂).2)) := by
  simp [resolveAgent, resolveSearchAgent, hc, hs, mkChatAgent, mkSearchAgent]

/-- Witness for C8 at the empty registry state. -/
theorem c8_registry_get_or_create_witness :
    (resolveAgent "chat" ⟨none, none, 0⟩).1 = some (mkChatAgent 0) :=
  (c8_registry_get_or_create ⟨none, none, 0⟩ ⟨none, none, 0⟩ rfl rfl).1.1

/-- C9: the capabilities endpoint returns the registry state unchanged (its
constructed instances are throwaways that are never stored), its result is
the same whatever the state (so repeated calls return identical capability
sets), and running it before a chat or search dispatch leaves that dispatch
exactly as it would have been. -/
theorem c9_capabilities_no_side_effects (st st₂ : RegistryState)
    (execC : Agent → String → Except String Outcome)
    (execS : Agent → String → Bool → Except String Outcome)
    (req : ChatRequest) (sreq : SearchRequest) :
    (get_agent_capabilities st).2 = st ∧
    (get_agent_capabilities st).1 = (get_agent_capabilities st₂).1 ∧
    chat_with_agent execC req (get_agent_capabilities st).2 =
      chat_with_agent execC req st ∧
    search_and_summarize execS sreq (get_agent_capabilities st).2 =
      search_and_summarize execS sreq st :=
  ⟨rfl, rfl, rfl, rfl⟩

/-- A search-agent execution that always returns the given outcome. -/
def execSConst (o : Outcome) : Agent → String → Bool → Except String Outcome :=
  fun _ _ _ => .ok o

/-- C6: when the search agent's execution returns an outcome, the search
envelope on reported success carries the outcome's content as summary, the
raw outcome metadata, and `sources_count = metadata.get("tools_used", 0)`;
on reported failure it carries `sources_count = 0`, an empty summary, and
the outcome's error string copied through. -/
theorem c6_search_envelope_mapping
    (execS : Agent → String → Bool → Except String Outcome)
    (req : SearchRequest) (st : RegistryState) (o : Outcome)
    (h : execS (resolveSearchAgent st).1 (searchPrompt req.query) true = .ok o) :
    (o.success = true →
      (search_and_summarize execS req st).1 =
        ⟨true, req.query, o.content, some o.metadata,
         dictGetD o.metadata "tools_used" 0, none⟩) ∧
    (o.success = false →
      (search_and_summarize execS req st).1 =
        ⟨false, req.query, "", none, 0, o.error⟩) := by
  constructor <;> intro hs <;> simp [search_and_summarize, h, hs]

/-- Witness for C6 at a concrete successful outcome carrying a
`tools_used` counter. -/
theorem c6_search_envelope_mapping_witness :
    (search_and_summarize (execSConst ⟨true, "two findings", [("tools_used", 2)], none⟩)
        ⟨"rust ownership", 3⟩ ⟨none, none, 0⟩).1 =
      ⟨true, "rust ownership", "two findings", some [("tools_used", 2)],
       dictGetD [("tools_used", 2)] "tools_used" 0, none⟩ :=
  (c6_search_envelope_mapping (execSConst ⟨true, "two findings", [("tools_used", 2)], none⟩)
      ⟨"rust ownership", 3⟩ ⟨none, none, 0⟩
      ⟨true, "two findings", [("tools_used", 2)], none⟩ rfl).1 rfl

/-- A chat-agent execution returning a malformed outcome: reported failure
with non-empty content and no error string. -/
def badExecChat : Agent → String → Except String Outcome :=
  fun _ _ => .ok ⟨false, "leftover content", [], none⟩

/-- C1 counterexample: the chat dispatcher copies the agent outcome's
`success`, `content` and `error` fields into the envelope verbatim, so an
outcome with `success = false`, non-empty content and no error yields an
envelope violating the invariant (failure with non-empty payload and empty
error). -/
theorem c1_counterexample :
    ¬ chatInvariant
      (chat_with_agent badExecChat ⟨"hello", "chat", none⟩ ⟨none, none, 0⟩).1 := by
  unfold chatInvariant envelopeOk
  decide

/-- `envelopeOk` holds for any failure envelope with empty payload and a
non-empty error string. -/
theorem envelopeOk_of_failure (s : String) (hs : s ≠ "") :
    envelopeOk false "" (some s) :=
  ⟨fun _ => ⟨rfl, fun h => Option.noConfusion h,
    fun h => hs (Option.some.inj h)⟩, fun h => Bool.noConfusion h⟩

/-- C1 amended: provided every outcome the agents return is itself
well-formed (reported failure carries empty content and a non-empty error,
reported success carries no error) and every fault description is
non-empty, every envelope returned by the chat and search dispatchers
satisfies the invariant: `success = false` implies the payload/summary is
empty and the error is non-empty, and `success = true` implies the error is
empty.  Without the proviso on outcomes the invariant fails, because the
chat dispatcher copies outcome fields verbatim. -/
theorem c1_envelope_invariant
    (execC : Agent → String → Except String Outcome)
    (execS : Agent → String → Bool → Except String Outcome)
    (hCo : ∀ a m o, execC a m = .ok o → outcomeWellFormed o)
    (hCe : ∀ a m e, execC a m = .error e → e ≠ "")
    (hSo : ∀ a p t o, execS a p t = .ok o → outcomeWellFormed o)
    (hSe : ∀ a p t e, execS a p t = .error e → e ≠ "")
    (req : ChatRequest) (sreq : SearchRequest) (st st₂ : RegistryState) :
    chatInvariant (chat_with_agent execC req st).1 ∧
    searchInvariant (search_and_summarize execS sreq st₂).1 := by
  constructor
  · unfold chatInvariant chat_with_agent
    cases hag : (resolveAgent req.agent_type st).1 with
    | none =>
      simp only [hag]
      exact envelopeOk_of_failure _ (by unfold strOfHTTPException; decide)
    | some agent =>
      cases he : execC agent req.message with
      | error e =>
        simp only [hag, he]
        exact envelopeOk_of_failure e (hCe _ _ _ he)
      | ok o =>
        simp only [hag, he]
        exact hCo _ _ _ he
  · unfold searchInvariant search_and_summarize
    cases he : execS (resolveSearchAgent st₂).1 (searchPrompt sreq.query) true with
    | error e =>
      simp only [he]
      exact envelopeOk_of_failure e (hSe _ _ _ _ he)
    | ok o =>
      cases ho : o.success with
      | true =>
        simp only [he, ho, if_true]
        exact ⟨fun h => Bool.noConfusion h, fun _ => rfl⟩
      | false =>
        simp only [he, ho]
        have hw := (hSo _ _ _ _ he).1 ho
        simp only [Bool.false_eq_true, if_false]
        exact ⟨fun _ => ⟨rfl, hw.2.1, hw.2.2⟩, fun h => Bool.noConfusion h⟩

/-- A chat-agent execution that always succeeds with a well-formed
outcome. -/
def goodExecChat : Agent → String → Except String Outcome :=
  fun _ _ => .ok ⟨true, "hello there", [], none⟩

/-- A search-agent execution that always succeeds with a well-formed
outcome carrying a `tools_used` counter. -/
def goodExecSearch : Agent → String → Bool → Except String Outcome :=
  fun _ _ _ => .ok ⟨true, "summary of findings", [("tools_used", 1)], none⟩

/-- Witness for C1 at concrete well-formed agent executions. -/
theorem c1_envelope_invariant_witness :
    chatInvariant (chat_with_agent goodExecChat ⟨"hello", "chat", none⟩ ⟨none, none, 0⟩).1 ∧
    searchInvariant (search_and_summarize goodExecSearch ⟨"rust ownership", 5⟩ ⟨none, none, 0⟩).1 :=
  c1_envelope_invariant goodExecChat goodExecSearch
    (fun _ _ o h => by
      injection h with h'
      subst h'
      exact ⟨fun hc => Bool.noConfusion hc, fun _ => rfl⟩)
    (fun _ _ e h => Except.noConfusion h)
    (fun _ _ _ o h => by
      injection h with h'
      subst h'
      exact ⟨fun hc => Bool.noConfusion hc, fun _ => rfl⟩)
    (fun _ _ _ e h => Except.noConfusion h)
    ⟨"hello", "chat", none⟩ ⟨"rust ownership", 5⟩ ⟨none, none, 0⟩ ⟨none, none, 0⟩

/-- Inserting into the descending sort yields a permutation of consing. -/
theorem insertByCreatedAtDesc_perm (w : Wallpaper) (l : List Wallpaper) :
    List.Perm (insertByCreatedAtDesc w l) (w :: l) := by
  induction l with
  | nil => exact List.Perm.refl _
  | cons x xs ih =>
    simp only [insertByCreatedAtDesc]
    by_cases h : x.created_at < w.created_at
    · simp only [if_pos h]
      exact List.Perm.refl _
    · simp only [if_neg h]
      exact (ih.cons x).trans (List.Perm.swap w x xs)

/-- The descending sort is a permutation of its input. -/
theorem sortByCreatedAtDesc_perm (ws : List Wallpaper) :
    List.Perm (sortByCreatedAtDesc ws) ws := by
  induction ws with
  | nil => exact List.Perm.refl _
  | cons x xs ih =>
    simp only [sortByCreatedAtDesc, List.foldr_cons]
    exact (insertByCreatedAtDesc_perm x _).trans (ih.cons x)

/-- Insertion preserves the descending-by-`created_at` ordering. -/
theorem insertByCreatedAtDesc_sorted (w : Wallpaper) (l : List Wallpaper)
    (h : l.Pairwise (fun a b => b.created_at ≤ a.created_at)) :
    (insertByCreatedAtDesc w l).Pairwise (fun a b => b.created_at ≤ a.created_at) := by
  induction l with
  | nil => simp [insertByCreatedAtDesc]
  | cons x xs ih =>
    rw [List.pairwise_cons] at h
    obtain ⟨hx, hxs⟩ := h
    simp only [insertByCreatedAtDesc]
    by_cases hlt : x.created_at < w.created_at
    · simp only [if_pos hlt]
      rw [List.pairwise_cons]
      refine ⟨?_, List.pairwise_cons.mpr ⟨hx, hxs⟩⟩
      intro b hb
      rcases List.mem_cons.mp hb with rfl | hbxs
      · exact Nat.le_of_lt hlt
      · exact (hx b hbxs).trans (Nat.le_of_lt hlt)
    · simp only [if_neg hlt]
      rw [List.pairwise_cons]
      refine ⟨?_, ih hxs⟩
      intro b hb
      rcases List.mem_cons.mp ((insertByCreatedAtDesc_perm w xs).mem_iff.mp hb)
        with rfl | hbxs
      · exact Nat.le_of_not_lt hlt
      · exact hx b hbxs

/-- The descending sort is sorted: each element's `created_at` is at least
every later element's. -/
theorem sortByCreatedAtDesc_sorted (ws : List Wallpaper) :
    (sortByCreatedAtDesc ws).Pairwise (fun a b => b.created_at ≤ a.created_at) := by
  induction ws with
  | nil => simp [sortByCreatedAtDesc]
  | cons x xs ih =>
    simp only [sortByCreatedAtDesc, List.foldr_cons]
    exact insertByCreatedAtDesc_sorted x _ ih

/-- C7: for a store whose records carry pairwise distinct `created_at`
timestamps, the listing endpoint returns the records ordered strictly
descending by `created_at`, and returns at most 100 of them. -/
theorem c7_listing_reverse_chronological (store : List Wallpaper)
    (h : store.Pairwise (fun a b => a.created_at ≠ b.created_at)) :
    (get_wallpapers (.ok (dbFindSortDescTake100 store))).Pairwise
      (fun a b => b.created_at < a.created_at) ∧
    (get_wallpapers (.ok (dbFindSortDescTake100 store))).length ≤ 100 := by
  have hsorted := sortByCreatedAtDesc_sorted store
  have hnd : (sortByCreatedAtDesc store).Pairwise
      (fun a b => a.created_at ≠ b.created_at) :=
    (List.Perm.pairwise_iff (fun hab => Ne.symm hab)
      (sortByCreatedAtDesc_perm store)).mpr h
  have hgt : (sortByCreatedAtDesc store).Pairwise
      (fun a b => b.created_at < a.created_at) :=
    (hsorted.and hnd).imp fun hab => Nat.lt_of_le_of_ne hab.1 hab.2.symm
  have htake : (dbFindSortDescTake100 store).Pairwise
      (fun a b => b.created_at < a.created_at) :=
    List.Pairwise.sublist (List.take_sublist 100 _) hgt
  constructor
  · show ((dbFindSortDescTake100 store).map toResponse).Pairwise _
    exact List.pairwise_map.mpr (htake.imp fun hab => hab)
  · show ((dbFindSortDescTake100 store).map toResponse).length ≤ 100
    rw [List.length_map]
    exact List.length_take_le 100 _

/-- Witness for C7 at a concrete three-record store with distinct
timestamps 1 < 2 < 3. -/
theorem c7_listing_reverse_chronological_witness :
    (get_wallpapers (.ok (dbFindSortDescTake100
        [⟨"a", "p1", "9:16", "u1", "d1", 1⟩,
         ⟨"b", "p2", "9:16", "u2", "d2", 3⟩,
         ⟨"c", "p3", "9:16", "u3", "d3", 2⟩]))).Pairwise
      (fun a b => b.created_at < a.created_at) ∧
    (get_wallpapers (.ok (dbFindSortDescTake100
        [⟨"a", "p1", "9:16", "u1", "d1", 1⟩,
         ⟨"b", "p2", "9:16", "u2", "d2", 3⟩,
         ⟨"c", "p3", "9:16", "u3", "d3", 2⟩]))).length ≤ 100 :=
  c7_listing_reverse_chronological
    [⟨"a", "p1", "9:16", "u1", "d1", 1⟩,
     ⟨"b", "p2", "9:16", "u2", "d2", 3⟩,
     ⟨"c", "p3", "9:16", "u3", "d3", 2⟩] (by decide)
